import Mathlib

/-!
Shallow embedding of the meterclock firmware (src/main.cpp): three analog
gauges driven from a real-time clock. The embedding models the pure
computations of the code — the needle update state machine `updateMeter`,
the second-sweep mapping in `displayTime`, the 24h to 12h conversion, the
second-boundary anchor logic of `getRTCTime`, and the fatal-error branch of
`setup` — with machine integers as `Nat` plus explicit `% 2 ^ 32` (for
`unsigned long` / `millis()`) and `% 256` (for `byte`) where overflow can
occur.
-/

/-- PWM pin for the seconds gauge (main.cpp line 13). -/
def VU_SEC_PIN : Nat := 11

/-- PWM pin for the minutes gauge (main.cpp line 14). -/
def VU_MIN_PIN : Nat := 10

/-- PWM pin for the hours gauge (main.cpp line 15). -/
def VU_HOUR_PIN : Nat := 9

/-- Calibration table for the hour gauge (main.cpp line 31). -/
def hourVals : List Nat := [0, 22, 44, 67, 92, 117, 142, 166, 189, 212, 233, 255]

/-- Calibration table for the minute gauge (main.cpp lines 32-35). -/
def minuteVals : List Nat :=
  [0, 4, 9, 13, 17, 20, 24, 29, 33, 37, 41, 45, 49, 53, 57,
   62, 66, 71, 75, 79, 83, 87, 92, 96, 100, 105, 109, 114, 118, 123,
   127, 131, 136, 140, 144, 149, 153, 157, 162, 166, 170, 175, 179, 184, 188,
   193, 198, 202, 206, 210, 214, 219, 223, 227, 231, 235, 240, 244, 248, 251]

/-- The modulus of the AVR `unsigned long` type, 2 ^ 32, used by `millis()`
arithmetic. -/
def U32 : Nat := 4294967296

/-- `(unsigned long)(now - last)`: wraparound subtraction of two `millis()`
timestamps (both already reduced modulo 2 ^ 32), as on main.cpp lines 117
and 161. -/
def elapsedSince (now last : Nat) : Nat := (now + U32 - last) % U32

/-- `updateInterval` (main.cpp line 143): milliseconds between downward sweep
steps. -/
def updateInterval : Nat := 100

/-- `sweepLength` (main.cpp line 144): total milliseconds a full downward
sweep should last. -/
def sweepLength : Nat := 750

/-- `byte interval = 255 / (sweepLength / (float)updateInterval)` (main.cpp
line 156). The float arithmetic is exact here: 750 / 100.0f = 7.5f and
255 / 7.5f = 34.0f, truncated to the byte 34, which equals the Nat
computation 255 * 100 / 750. -/
def stepSize : Nat := 255 * updateInterval / sweepLength

/-- The per-call state of `updateMeter`: the gauge level passed by reference
(`byte &curVal`) and the `static unsigned long lastUpdate` timestamp. Note
that in the source `lastUpdate` is one function-level static shared by all
three gauges; the sharing is modelled in `ClockState` below. -/
structure MeterState where
  curVal : Nat
  lastUpdate : Nat

/-- Result of one `updateMeter` call: the new state and the `analogWrite`
issued during the call (`none` when no write happened). -/
structure UpdateResult where
  state : MeterState
  write : Option Nat

/-- `updateMeter(byte &curVal, byte targetVal, byte VU_PIN)` (main.cpp lines
142-171). Branches in source order: equal target is a no-op with no write;
a larger target is adopted immediately; for a smaller target, a level below
the step size is clamped to 0 (with no rate-limit check), otherwise the
level drops by the step size only when strictly more than `updateInterval`
milliseconds have elapsed since the last step; in every non-equal branch the
final `analogWrite(VU_PIN, curVal)` is issued, whether or not the level
changed. The byte decrement `curVal -= interval` is embedded as arithmetic
modulo 256. -/
def updateMeter (s : MeterState) (targetVal now : Nat) : UpdateResult :=
  if s.curVal = targetVal then
    ⟨s, none⟩
  else if s.curVal < targetVal then
    ⟨⟨targetVal, s.lastUpdate⟩, some targetVal⟩
  else if s.curVal < stepSize then
    ⟨⟨0, s.lastUpdate⟩, some 0⟩
  else if updateInterval < elapsedSince now s.lastUpdate then
    ⟨⟨(s.curVal + 256 - stepSize) % 256, now⟩, some ((s.curVal + 256 - stepSize) % 256)⟩
  else
    ⟨s, some s.curVal⟩

/-- `(curTime.hour() == 0 || curTime.hour() == 12) ? 12 : curTime.hour() % 12`
(main.cpp line 110). -/
def hourTo12 (hour : Nat) : Nat :=
  if hour = 0 ∨ hour = 12 then 12 else hour % 12

/-- `curSecMillis = (curTime.second() * 1000UL) + (unsigned long)(millis() -
lastSecond)` (main.cpp line 117), with `unsigned long` arithmetic modulo
2 ^ 32. -/
def curSecMillis (sec lastSecond now : Nat) : Nat :=
  (sec * 1000 + elapsedSince now lastSecond) % U32

/-- The Arduino `map()` function, `(x - in_min) * (out_max - out_min) /
(in_max - in_min) + out_min`, at nonnegative arguments with `x` at least
`inMin`, where the C truncating `long` division coincides with Nat floor
division. -/
def arduinoMap (x inMin inMax outMin outMax : Nat) : Nat :=
  (x - inMin) * (outMax - outMin) / (inMax - inMin) + outMin

/-- `newSec = map(curSecMillis, 0, 60000, 0, 255)` (main.cpp line 119),
with the assignment to the `byte` variable `newSec` embedded as reduction
modulo 256. -/
def newSecLevel (ms : Nat) : Nat :=
  arduinoMap ms 0 60000 0 255 % 256

/-- `newMin = pgm_read_byte(&minuteVals[curTime.minute()])` (main.cpp line 120). -/
def newMinLevel (minute : Nat) : Nat := minuteVals.getD minute 0

/-- `newHour = pgm_read_byte(&hourVals[h - 1])` (main.cpp line 121). -/
def newHourLevel (hour : Nat) : Nat := hourVals.getD (hourTo12 hour - 1) 0

/-- Written from the wording of the spec, not from the source: linear scaling
of elapsed milliseconds to an output level with rounding toward the nearest
integer, round(ms * 255 / 60000), realized as floor(ms * 255 / 60000 + 1/2). -/
def specRoundSecLevel (ms : Nat) : Nat :=
  (ms * 255 * 2 + 60000) / 120000

/-- The state read and written by `getRTCTime` (main.cpp lines 194-201): the
previously fetched second value (from the global `curTime`) and the global
`lastSecond` anchor timestamp. -/
structure RTCState where
  second : Nat
  lastSecond : Nat

/-- `getRTCTime(DateTime &curTime)` (main.cpp lines 194-201), restricted to
the fields it touches: it fetches the new second value and refreshes the
`lastSecond` anchor to the current `millis()` exactly when `oldSec <
curTime.second()`. -/
def getRTCTime (st : RTCState) (newSecond now : Nat) : RTCState :=
  if st.second < newSecond then ⟨newSecond, now⟩ else ⟨newSecond, st.lastSecond⟩

/-- The gauge-level state of one `displayTime` polling cycle (main.cpp lines
106 and 145): the three per-gauge static levels `sec`, `min`, `hour`, and
the single `static unsigned long lastUpdate` inside `updateMeter`, which is
shared by the three calls. -/
structure ClockState where
  secVal : Nat
  minVal : Nat
  hourVal : Nat
  lastUpdate : Nat

/-- `updateMeter(sec, newSec, VU_SEC_PIN)` (main.cpp line 124) acting on the
shared system state. -/
def updateSecMeter (cs : ClockState) (target now : Nat) : ClockState :=
  let r := updateMeter ⟨cs.secVal, cs.lastUpdate⟩ target now
  ⟨r.state.curVal, cs.minVal, cs.hourVal, r.state.lastUpdate⟩

/-- `updateMeter(min, newMin, VU_MIN_PIN)` (main.cpp line 125) acting on the
shared system state. -/
def updateMinMeter (cs : ClockState) (target now : Nat) : ClockState :=
  let r := updateMeter ⟨cs.minVal, cs.lastUpdate⟩ target now
  ⟨cs.secVal, r.state.curVal, cs.hourVal, r.state.lastUpdate⟩

/-- `updateMeter(hour, newHour, VU_HOUR_PIN)` (main.cpp line 126) acting on
the shared system state. -/
def updateHourMeter (cs : ClockState) (target now : Nat) : ClockState :=
  let r := updateMeter ⟨cs.hourVal, cs.lastUpdate⟩ target now
  ⟨cs.secVal, cs.minVal, r.state.curVal, r.state.lastUpdate⟩

/-- The `analogWrite` calls of `testMeter(byte pin)` (main.cpp lines 177-187):
levels 0..254 going up, then 255 down to 1. -/
def testMeterWrites (pin : Nat) : List (Nat × Nat) :=
  ((List.range 255).map fun i => (pin, i)) ++ ((List.range 255).map fun i => (pin, 255 - i))

/-- Result of `setup()` (main.cpp lines 55-99): the ordered `analogWrite`
calls it performs, and whether control falls through to the steady-state
`loop()`. The `while (1) {}` on the no-RTC branch is modelled by
`loopEntered = false`: the display loop is never entered and no further
writes occur. -/
structure SetupResult where
  writes : List (Nat × Nat)
  loopEntered : Bool

/-- `setup()` (main.cpp lines 55-99) as a function of whether `rtc.begin()`
succeeds: the three pins are first initialized to 0; if the RTC is not found
all three gauges are set to the mid-scale level 128 and the program halts in
`while (1) {}`; otherwise the startup animation runs and `loop()` is
entered. -/
def setup (rtcFound : Bool) : SetupResult :=
  let init := [(VU_SEC_PIN, 0), (VU_MIN_PIN, 0), (VU_HOUR_PIN, 0)]
  if rtcFound then
    ⟨init ++ testMeterWrites VU_HOUR_PIN ++ testMeterWrites VU_MIN_PIN
       ++ testMeterWrites VU_SEC_PIN, true⟩
  else
    ⟨init ++ [(VU_SEC_PIN, 128), (VU_MIN_PIN, 128), (VU_HOUR_PIN, 128)], false⟩

/-- The last level written to a pin by a list of `analogWrite` calls. -/
def finalLevel (pin : Nat) (writes : List (Nat × Nat)) : Option Nat :=
  ((writes.filter fun w => w.1 == pin).getLast?).map Prod.snd

/-! ## Helper lemmas about `updateMeter` -/

theorem updateMeter_idle (s : MeterState) (T now : Nat) (h : s.curVal = T) :
    updateMeter s T now = ⟨s, none⟩ := by
  unfold updateMeter
  rw [if_pos h]

theorem updateMeter_rise (s : MeterState) (T now : Nat) (h : s.curVal < T) :
    updateMeter s T now = ⟨⟨T, s.lastUpdate⟩, some T⟩ := by
  unfold updateMeter
  rw [if_neg (by omega), if_pos h]

theorem updateMeter_clamp (s : MeterState) (T now : Nat) (h : T < s.curVal)
    (h2 : s.curVal < stepSize) :
    updateMeter s T now = ⟨⟨0, s.lastUpdate⟩, some 0⟩ := by
  unfold updateMeter
  rw [if_neg (by omega), if_neg (by omega), if_pos h2]

theorem updateMeter_step (s : MeterState) (T now : Nat) (h : T < s.curVal)
    (h2 : stepSize ≤ s.curVal) (h3 : updateInterval < elapsedSince now s.lastUpdate)
    (hmax : s.curVal ≤ 255) :
    updateMeter s T now = ⟨⟨s.curVal - stepSize, now⟩, some (s.curVal - stepSize)⟩ := by
  unfold updateMeter
  rw [if_neg (by omega), if_neg (by omega), if_neg (by omega), if_pos h3]
  have h34 : stepSize = 34 := by decide
  have hmod : (s.curVal + 256 - stepSize) % 256 = s.curVal - stepSize := by omega
  rw [hmod]

theorem updateMeter_hold (s : MeterState) (T now : Nat) (h : T < s.curVal)
    (h2 : stepSize ≤ s.curVal) (h3 : ¬ updateInterval < elapsedSince now s.lastUpdate) :
    updateMeter s T now = ⟨s, some s.curVal⟩ := by
  unfold updateMeter
  rw [if_neg (by omega), if_neg (by omega), if_neg (by omega), if_neg h3]

theorem updateMeter_fall_curVal (s : MeterState) (T now : Nat)
    (hfall : T < s.curVal) (hmax : s.curVal ≤ 255) :
    (updateMeter s T now).state.curVal =
      if s.curVal < stepSize then 0
      else if updateInterval < elapsedSince now s.lastUpdate then s.curVal - stepSize
      else s.curVal := by
  by_cases h2 : s.curVal < stepSize
  · rw [updateMeter_clamp s T now hfall h2, if_pos h2]
  · by_cases h3 : updateInterval < elapsedSince now s.lastUpdate
    · rw [updateMeter_step s T now hfall (Nat.le_of_not_lt h2) h3 hmax, if_neg h2, if_pos h3]
    · rw [updateMeter_hold s T now hfall (Nat.le_of_not_lt h2) h3, if_neg h2, if_neg h3]

theorem newSecLevel_eq_div (e : Nat) (h : e < 60000) :
    newSecLevel e = e * 255 / 60000 := by
  unfold newSecLevel arduinoMap
  simp only [Nat.sub_zero, Nat.add_zero]
  omega

/-! ## Claim theorems -/

/-- Claim C1, counterexample: the falling behaviour does not decrease the
level monotonically by the step size until it reaches the target or 0. With
target 90 and level 100, one call (spaced 101 ms, more than the rate-limit
interval) drops the level to 66 — strictly below the target, neither the
target nor 0 — and the following call spaced 101 ms later moves the level
upward, back to 90. Moreover with target 10 and level 30 the level is
clamped straight to 0, even though the target is positive and only 5 ms
have elapsed. -/
theorem C1_counterexample :
    (updateMeter ⟨100, 0⟩ 90 101).state.curVal = 66 ∧
    (66 : Nat) ≠ 90 ∧ (66 : Nat) ≠ 0 ∧ (66 : Nat) < 90 ∧
    (updateMeter ⟨66, 101⟩ 90 202).state.curVal = 90 ∧
    (updateMeter ⟨30, 0⟩ 10 5).state.curVal = 0 := by
  decide

/-- Claim C1 (amended): for every target T strictly below the current level
C ≤ 255, one update call behaves as follows — if C is below the step size
34 the level is clamped to 0 at once (regardless of the rate limit and even
when T > 0); otherwise it drops by exactly 34 when strictly more than the
100 ms rate-limit interval has elapsed since the last step, and is left
unchanged otherwise. The level never increases during a falling call, the
drop per call is at most one step size, and the byte subtraction never
wraps: repeated spaced calls therefore decrease the level until it is at
most T or equals 0, possibly strictly below T (a subsequent call then rises
back to T). -/
theorem C1_fall_step (s : MeterState) (T now : Nat)
    (hfall : T < s.curVal) (hmax : s.curVal ≤ 255) :
    (updateMeter s T now).state.curVal =
      (if s.curVal < stepSize then 0
       else if updateInterval < elapsedSince now s.lastUpdate then s.curVal - stepSize
       else s.curVal) ∧
    (updateMeter s T now).state.curVal ≤ s.curVal ∧
    s.curVal - (updateMeter s T now).state.curVal ≤ stepSize := by
  have he := updateMeter_fall_curVal s T now hfall hmax
  rw [he]
  refine ⟨rfl, ?_, ?_⟩
  · split_ifs <;> omega
  · split_ifs <;> omega

/-- Witness for C1_fall_step at level 200, target 0, elapsed 101 ms. -/
theorem C1_fall_step_witness :
    (updateMeter ⟨200, 0⟩ 0 101).state.curVal ≤ 200 ∧
    200 - (updateMeter ⟨200, 0⟩ 0 101).state.curVal ≤ stepSize :=
  (C1_fall_step ⟨200, 0⟩ 0 101 (by decide) (by decide)).2

/-- Claim C2: when the target is strictly above the current level, a single
update call sets the level to the target, and the one write issued carries
exactly the target value (no intermediate value is written). -/
theorem C2_rise_immediate (s : MeterState) (T now : Nat) (h : s.curVal < T) :
    (updateMeter s T now).state.curVal = T ∧
    (updateMeter s T now).write = some T := by
  rw [updateMeter_rise s T now h]
  exact ⟨rfl, rfl⟩

/-- Witness for C2_rise_immediate at level 10, target 200. -/
theorem C2_rise_immediate_witness :
    (updateMeter ⟨10, 0⟩ 200 0).state.curVal = 200 ∧
    (updateMeter ⟨10, 0⟩ 200 0).write = some 200 :=
  C2_rise_immediate ⟨10, 0⟩ 200 0 (by decide)

/-- Claim C3: starting from a level in [0, 255] with a target in [0, 255],
one update call keeps the level in [0, 255]; whenever the call decreases
the level the decrease is at most one step size; and whenever it increases
the level it jumps directly to the target (bounded by nothing but the
target itself). -/
theorem C3_level_invariant (s : MeterState) (T now : Nat)
    (hs : s.curVal ≤ 255) (hT : T ≤ 255) :
    (updateMeter s T now).state.curVal ≤ 255 ∧
    ((updateMeter s T now).state.curVal < s.curVal →
      s.curVal - (updateMeter s T now).state.curVal ≤ stepSize) ∧
    (s.curVal < (updateMeter s T now).state.curVal →
      (updateMeter s T now).state.curVal = T) := by
  rcases Nat.lt_trichotomy s.curVal T with h | h | h
  · rw [updateMeter_rise s T now h]
    exact ⟨hT, fun hlt => absurd (Nat.lt_trans h hlt) (Nat.lt_irrefl _),
      fun _ => rfl⟩
  · rw [updateMeter_idle s T now h]
    exact ⟨hs, fun hlt => absurd hlt (Nat.lt_irrefl _),
      fun hlt => absurd hlt (Nat.lt_irrefl _)⟩
  · have he := updateMeter_fall_curVal s T now h hs
    rw [he]
    refine ⟨?_, ?_, ?_⟩
    · split_ifs <;> omega
    · split_ifs <;> omega
    · split_ifs <;> omega

/-- Witness for C3_level_invariant at level 255, target 0, elapsed 101 ms. -/
theorem C3_level_invariant_witness :
    (updateMeter ⟨255, 0⟩ 0 101).state.curVal ≤ 255 :=
  (C3_level_invariant ⟨255, 0⟩ 0 101 (by decide) (by decide)).1

/-- Claim C4, evaluation at the failing input: with level 100, target 50 and
only 50 ms elapsed since the last downward step, the call leaves the level
unchanged at 100 yet still issues an `analogWrite` of 100 — a write in a
cycle where the level did not change, contradicting the write discipline of
the claim and the comments of `updateMeter` in the source. -/
theorem C4_redundant_write :
    (updateMeter ⟨100, 0⟩ 50 50).state.curVal = 100 ∧
    (updateMeter ⟨100, 0⟩ 50 50).write = some 100 := by
  decide

/-- Claim C5: the second-sweep mapping is monotonically non-decreasing on
[0, 60000): for all e1 < e2 < 60000 the mapped level of e1 is at most that
of e2; the mapped level of 0 is 0; and the mapped level of 59999 is 254,
within one unit of 255. -/
theorem C5_sweep_monotone :
    (∀ e1 e2 : Nat, e1 < e2 → e2 < 60000 → newSecLevel e1 ≤ newSecLevel e2) ∧
    newSecLevel 0 = 0 ∧
    newSecLevel 59999 = 254 ∧ 255 - newSecLevel 59999 ≤ 1 := by
  refine ⟨?_, by decide, by decide, by decide⟩
  intro e1 e2 h12 h2
  rw [newSecLevel_eq_div e1 (by omega), newSecLevel_eq_div e2 h2]
  omega

/-- Witness for C5_sweep_monotone at 30000 < 45000. -/
theorem C5_sweep_monotone_witness :
    newSecLevel 30000 ≤ newSecLevel 45000 :=
  C5_sweep_monotone.1 30000 45000 (by decide) (by decide)

/-- Claim C6, counterexample: the code truncates instead of rounding to the
nearest integer. At 118 elapsed milliseconds the exact value 118 * 255 /
60000 = 0.5015 rounds to 1, but the code computes 0. -/
theorem C6_counterexample :
    newSecLevel 118 = 0 ∧ specRoundSecLevel 118 = 1 ∧
    newSecLevel 118 ≠ specRoundSecLevel 118 := by
  decide

/-- Claim C6 (amended): for every e < 60000 the computed level equals the
truncating (floor) division e * 255 / 60000 — not round-to-nearest; it is
never above the round-to-nearest value and falls short of it by at most
one. -/
theorem C6_floor_scaling (e : Nat) (h : e < 60000) :
    newSecLevel e = e * 255 / 60000 ∧
    newSecLevel e ≤ specRoundSecLevel e ∧
    specRoundSecLevel e ≤ newSecLevel e + 1 := by
  have he := newSecLevel_eq_div e h
  refine ⟨he, ?_, ?_⟩
  · rw [he]
    unfold specRoundSecLevel
    omega
  · rw [he]
    unfold specRoundSecLevel
    omega

/-- Witness for C6_floor_scaling at e = 500. -/
theorem C6_floor_scaling_witness :
    newSecLevel 500 = 500 * 255 / 60000 :=
  (C6_floor_scaling 500 (by decide)).1

/-- Claim C7, counterexample: the last-sweep-update timestamp is not per
gauge. From the state with second-gauge level 100, minute-gauge level 50
and shared timestamp 0, a rate-limited downward step of the seconds gauge
at 101 ms rewrites the shared timestamp to 101; a subsequent falling update
of the minutes gauge at 150 ms then makes no step (the minutes level stays
50), whereas without the seconds update the very same minutes call would
have stepped the minutes level down to 16. -/
theorem C7_counterexample :
    (updateSecMeter ⟨100, 50, 50, 0⟩ 0 101).lastUpdate = 101 ∧
    (updateSecMeter ⟨100, 50, 50, 0⟩ 0 101).lastUpdate ≠ 0 ∧
    (updateMinMeter (updateSecMeter ⟨100, 50, 50, 0⟩ 0 101) 0 150).minVal = 50 ∧
    (updateMinMeter ⟨100, 50, 50, 0⟩ 0 150).minVal = 16 := by
  decide

/-- Claim C7 (amended): the current output level is exclusively per gauge —
an update call for one gauge leaves the levels of the other two gauges
unchanged — but the last-sweep-update timestamp is a single variable shared
by all three gauges, so it is not part of any exclusively owned per-gauge
state. -/
theorem C7_levels_per_gauge (cs : ClockState) (T now : Nat) :
    (updateSecMeter cs T now).minVal = cs.minVal ∧
    (updateSecMeter cs T now).hourVal = cs.hourVal ∧
    (updateMinMeter cs T now).secVal = cs.secVal ∧
    (updateMinMeter cs T now).hourVal = cs.hourVal ∧
    (updateHourMeter cs T now).secVal = cs.secVal ∧
    (updateHourMeter cs T now).minVal = cs.minVal :=
  ⟨rfl, rfl, rfl, rfl, rfl, rfl⟩

/-- Claim C8: when the RTC is not detected at startup, the last level
written to each of the three gauge pins by `setup` is the mid-scale value
128, and the steady-state display loop is never entered (so no further
gauge writes occur). -/
theorem C8_rtc_missing_diag :
    finalLevel VU_SEC_PIN (setup false).writes = some 128 ∧
    finalLevel VU_MIN_PIN (setup false).writes = some 128 ∧
    finalLevel VU_HOUR_PIN (setup false).writes = some 128 ∧
    (setup false).loopEntered = false := by
  decide

/-- Claim C9: the 24-hour to 12-hour conversion maps 0 to 12, 12 to 12, 13
to 1 and 23 to 11, and its result lies in [1, 12] for every hour in
[0, 23]. -/
theorem C9_hour_conversion :
    hourTo12 0 = 12 ∧ hourTo12 12 = 12 ∧ hourTo12 13 = 1 ∧ hourTo12 23 = 11 ∧
    ∀ h : Nat, h < 24 → 1 ≤ hourTo12 h ∧ hourTo12 h ≤ 12 := by
  decide

/-- Witness for C9_hour_conversion at hour 17. -/
theorem C9_hour_conversion_witness :
    1 ≤ hourTo12 17 ∧ hourTo12 17 ≤ 12 :=
  C9_hour_conversion.2.2.2.2 17 (by decide)

/-- Claim C10: `getRTCTime` refreshes the `lastSecond` anchor to the current
`millis()` exactly when the newly read second value is strictly greater
than the previous one, and leaves it untouched otherwise; in particular at
the 59 to 0 minute rollover the anchor is kept, so the elapsed-milliseconds
computation during second 0 still uses the anchor set when second 59
began. -/
theorem C10_anchor_update (st : RTCState) (newSecond now now2 : Nat) :
    (st.second < newSecond → getRTCTime st newSecond now = ⟨newSecond, now⟩) ∧
    (newSecond ≤ st.second → getRTCTime st newSecond now = ⟨newSecond, st.lastSecond⟩) ∧
    (st.second = 59 → newSecond = 0 →
      curSecMillis (getRTCTime st newSecond now).second
        (getRTCTime st newSecond now).lastSecond now2 =
        elapsedSince now2 st.lastSecond) := by
  refine ⟨fun h => ?_, fun h => ?_, fun h59 h0 => ?_⟩
  · unfold getRTCTime
    rw [if_pos h]
  · unfold getRTCTime
    rw [if_neg (by omega)]
  · subst h0
    unfold getRTCTime
    rw [if_neg (by omega)]
    show (0 * 1000 + elapsedSince now2 st.lastSecond) % U32 = elapsedSince now2 st.lastSecond
    unfold elapsedSince U32
    omega

/-- Witness for C10_anchor_update at the 59 to 0 rollover with anchor 1234. -/
theorem C10_anchor_update_witness :
    getRTCTime ⟨59, 1234⟩ 0 5000 = ⟨0, 1234⟩ :=
  (C10_anchor_update ⟨59, 1234⟩ 0 5000 0).2.1 (by decide)
